import Mathlib

/-!
Verification development for the WhatsApp approval MCP server
(`src/approval_server.py`).

The embedding is shallow: strings are Lean `String`s (with the handful of
Python string operations the program uses re-implemented over `List Char`
so that every use is structurally recursive and kernel-computable), the
SQLite table is a `List ApprovalRequest` (primary-key lookups are
`List.find?`, SQLite's default BINARY collation makes `=` on TEXT columns
case-sensitive, which `==` on `String` matches), wall-clock instants are
`Nat` seconds, and the two fallible Twilio sends are passed in as
`Except String Unit` values (an `Except.error` models
`twilio_client.messages.create` raising).
-/

/-- Python truthiness of an optional form/config string:
`None` and `""` are falsy, everything else truthy. -/
def pyTruthy : Option String → Bool
  | none => false
  | some s => !s.data.isEmpty

/-- Python `s[:n]`. -/
def pyTake (s : String) (n : Nat) : String := ⟨s.data.take n⟩

/-- Python `s.startswith(pre)`. -/
def pyStartsWith (s pre : String) : Bool := pre.data.isPrefixOf s.data

/-- Python `s.upper()` (ASCII case mapping, which covers this program's
keywords, hex ids and phone numbers). -/
def pyUpper (s : String) : String := ⟨s.data.map Char.toUpper⟩

/-- Python `s.strip()`: drop leading and trailing whitespace. -/
def pyStrip (s : String) : String :=
  ⟨((s.data.dropWhile Char.isWhitespace).reverse.dropWhile Char.isWhitespace).reverse⟩

/-- Worker for Python `s.replace(pat, "")`: removes every left-to-right
non-overlapping occurrence of `pat`.  The `fuel` argument (called with
`s.length`) only makes the recursion structural; it never runs out on the
canonical call because each step consumes at least one character. -/
def replaceAllAux (pat : List Char) : Nat → List Char → List Char
  | _, [] => []
  | 0, c :: cs => c :: cs
  | fuel + 1, c :: cs =>
    if pat.isPrefixOf (c :: cs) ∧ pat ≠ [] then
      replaceAllAux pat fuel (cs.drop (pat.length - 1))
    else
      c :: replaceAllAux pat fuel cs

/-- Python `s.replace(pat, "")`. -/
def pyReplaceDel (s pat : String) : String :=
  ⟨replaceAllAux pat.data s.data.length s.data⟩

/-- Python `s.split(sep)` for a one-character separator (the program splits
on `"_"` and `":"` only). -/
def pySplitChar (sep : Char) : List Char → List (List Char)
  | [] => [[]]
  | c :: cs =>
    match pySplitChar sep cs with
    | [] => [[]]
    | r :: rs => if c = sep then [] :: r :: rs else (c :: r) :: rs

/-- Row of the `approvalrequest` table (approval_server.py lines 26-36).
Timestamps are seconds as `Nat`; `responded_at`/`response` are `NULL`-able. -/
structure ApprovalRequest where
  id : String
  request_id : String
  description : String
  requester : String
  phone_number : String
  status : String
  created_at : Nat
  responded_at : Option Nat
  response : Option String
  expires_at : Nat
deriving Repr, DecidableEq

/-- The inbound Twilio form fields read by `twilio_webhook`
(approval_server.py lines 200-208); a field absent from the form is `none`. -/
structure FormData where
  Body : Option String := none
  From : Option String := none
  To : Option String := none
  ListId : Option String := none
  ListTitle : Option String := none
  ButtonText : Option String := none
  ButtonPayload : Option String := none
  MessageStatus : Option String := none
  MessageSid : Option String := none
deriving Repr, DecidableEq

/-- Result of the payload-decoding stage of `twilio_webhook`
(lines 233-275): either one of the `{"status": "ignored"}` early returns,
or the `(response, short_id, response_text)` triple the database stage uses. -/
inductive ParseOutcome where
  | ignored (reason : String)
  | parsed (response : String) (short_id : String) (response_text : String)
deriving Repr, DecidableEq

/-- The JSON bodies `twilio_webhook` can answer with, plus `exn` for an
exception escaping the handler (the Python code has no try/except around the
confirmation send, so a Twilio error there propagates out of the route). -/
inductive WebhookResult where
  | ok (message : String)
  | ignored (reason : String)
  | error (reason : String)
  | success (request_id : String) (response : String)
  | exn (message : String)
deriving Repr, DecidableEq

/-- The dictionaries `permissions__approve` can return:
`{"approved": True}`, `{"denied": True, "message": ...}`, `{"error": ...}`. -/
inductive ApproveResult where
  | approved
  | denied (message : String)
  | error (reason : String)
deriving Repr, DecidableEq

/-- Payload decoding of `twilio_webhook` (lines 233-275), after the
status-callback and missing-`From` guards.  Branch order is the source's:
quick-reply `ButtonPayload` first, then list-picker `ListId`, then the
free-text `Body` fallback (which is upper-cased after trimming). -/
def parseResponse (fd : FormData) : ParseOutcome :=
  if pyTruthy fd.ButtonPayload then
    match pySplitChar '_' (fd.ButtonPayload.getD "").data with
    | [a, s] =>
      let action : String := ⟨a⟩
      let short_id : String := ⟨s⟩
      if action = "approve" ∨ action = "deny" then
        ParseOutcome.parsed (if action = "approve" then "approved" else "denied")
          short_id
          (if pyTruthy fd.ButtonText then fd.ButtonText.getD ""
           else action ++ "_" ++ short_id)
      else ParseOutcome.ignored "Invalid button payload"
    | _ => ParseOutcome.ignored "Invalid button payload format"
  else if pyTruthy fd.ListId then
    match pySplitChar ':' (fd.ListId.getD "").data with
    | [a, s] =>
      let action : String := ⟨a⟩
      let short_id : String := ⟨s⟩
      if action = "approve" ∨ action = "deny" then
        ParseOutcome.parsed (if action = "approve" then "approved" else "denied")
          short_id (action ++ ":" ++ short_id)
      else ParseOutcome.ignored "Invalid list selection"
    | _ => ParseOutcome.ignored "Invalid list ID format"
  else if !pyTruthy fd.Body then ParseOutcome.ignored "No body content"
  else
    let body := pyUpper (pyStrip (fd.Body.getD ""))
    if pyStartsWith body "APPROVE " then
      ParseOutcome.parsed "approved" (pyStrip (pyReplaceDel body "APPROVE ")) body
    else if pyStartsWith body "DENY " then
      ParseOutcome.parsed "denied" (pyStrip (pyReplaceDel body "DENY ")) body
    else ParseOutcome.ignored "Invalid format"

/-- Line 280: strip the `whatsapp:` channel prefix from the inbound sender
address, if present (Python's `replace` removes every occurrence). -/
def normalizePhone (s : String) : String :=
  if pyStartsWith s "whatsapp:" then pyReplaceDel s "whatsapp:" else s

/-- The SQL filter of lines 283-286: `id == short_id AND phone_number ==
from_phone` (BINARY collation, hence case-sensitive `==`). -/
def matchesReq (short_id from_phone : String) (r : ApprovalRequest) : Bool :=
  r.id == short_id && r.phone_number == from_phone

/-- Replace the first element satisfying `p` by its image under `f`
(the ORM fetches the `.first()` matching row, mutates it and commits). -/
def updateFirst (p : α → Bool) (f : α → α) : List α → List α
  | [] => []
  | x :: xs => if p x then f x :: xs else x :: updateFirst p f xs

/-- Lines 301-304: the guarded update applied to the fetched row. -/
def applyDecision (response response_text : String) (now : Nat)
    (r : ApprovalRequest) : ApprovalRequest :=
  { r with status := response, response := some response_text,
           responded_at := some now }

/-- `twilio_webhook` up to (and including) the database commit
(lines 222-311): guards, payload decoding, recipient-filtered lookup,
already-processed and expiry checks, then the status update.
Returns the would-be JSON answer and the table contents after the call. -/
def webhookCore (fd : FormData) (store : List ApprovalRequest) (now : Nat) :
    WebhookResult × List ApprovalRequest :=
  if pyTruthy fd.MessageStatus && !pyTruthy fd.Body then
    (WebhookResult.ok "Status callback received", store)
  else if !pyTruthy fd.From then
    (WebhookResult.error "Missing From field", store)
  else
    match parseResponse fd with
    | ParseOutcome.ignored reason => (WebhookResult.ignored reason, store)
    | ParseOutcome.parsed response short_id response_text =>
      let from_phone := normalizePhone (fd.From.getD "")
      match store.find? (matchesReq short_id from_phone) with
      | none => (WebhookResult.error "Request not found", store)
      | some approval =>
        if approval.status ≠ "pending" then
          (WebhookResult.error "Request already processed", store)
        else if now > approval.expires_at then
          (WebhookResult.error "Request expired", store)
        else
          (WebhookResult.success approval.request_id response,
           updateFirst (matchesReq short_id from_phone)
             (applyDecision response response_text now) store)

/-- Full `twilio_webhook` (lines 191-329).  After a committed decision the
code sends a confirmation message with no exception handling (lines 313-323),
so when Twilio is configured a raising send turns the handler's answer into a
propagated exception; the database state is already committed either way. -/
def twilioWebhook (fd : FormData) (store : List ApprovalRequest) (now : Nat)
    (twilioConfigured : Bool) (confSend : Except String Unit) :
    WebhookResult × List ApprovalRequest :=
  match webhookCore fd store now with
  | (WebhookResult.success request_id response, store') =>
    if twilioConfigured then
      match confSend with
      | Except.error e => (WebhookResult.exn e, store')
      | Except.ok _ => (WebhookResult.success request_id response, store')
    else (WebhookResult.success request_id response, store')
  | other => other

/-- The row `permissions__approve` inserts (lines 92-109): the short id is
the first 8 characters of the full uuid, expiry is creation + 5 minutes. -/
def mkApproval (description request_id phone : String) (now : Nat) :
    ApprovalRequest :=
  { id := pyTake request_id 8
    request_id := request_id
    description := description
    requester := "Claude"
    phone_number := phone
    status := "pending"
    created_at := now
    responded_at := none
    response := none
    expires_at := now + 300 }

/-- Poll loop of `permissions__approve` (lines 147-172), iteration `k`
polling at instant `start + 2*k` (2-second sleeps, 300-second budget, so at
most 150 polls).  `lookup k` is what the `SELECT ... WHERE id == short_id`
returns at poll `k` — a function of `k` because the webhook handler mutates
the table concurrently.  The structural `fuel` (invoked with `150 - k`)
mirrors the loop bound: it reaches `0` exactly when `2*k < 300` fails, and
both exits return the `"Request timed out"` answer of line 172. -/
def waitLoopGo (lookup : Nat → Option ApprovalRequest) (expiresAt start : Nat) :
    Nat → Nat → ApproveResult
  | 0, _ => ApproveResult.error "Request timed out"
  | fuel + 1, k =>
    if 2 * k < 300 then
      match lookup k with
      | some r =>
        if r.status ≠ "pending" then
          if r.status = "approved" then ApproveResult.approved
          else ApproveResult.denied "Request was denied"
        else if start + 2 * k > expiresAt then ApproveResult.error "Request expired"
        else waitLoopGo lookup expiresAt start fuel (k + 1)
      | none =>
        if start + 2 * k > expiresAt then ApproveResult.error "Request expired"
        else waitLoopGo lookup expiresAt start fuel (k + 1)
    else ApproveResult.error "Request timed out"

/-- The wait loop entered at line 152, from poll 0. -/
def waitLoop (lookup : Nat → Option ApprovalRequest) (expiresAt start : Nat) :
    ApproveResult :=
  waitLoopGo lookup expiresAt start 150 0

/-- `permissions__approve` (lines 59-181) from the point where the request
description has been rendered (the rendering of lines 62-80 is cosmetic
formatting of the stored `description`, taken here as the already-rendered
argument).  `sendResult` is the outcome of the Twilio send of lines 114-143;
on a raise the `except` block (lines 174-181) deletes the row fetched by
primary key and returns the send-failure error. -/
def permissionsApprove (twilioConfigured : Bool) (approvalPhone : Option String)
    (description request_id : String) (now : Nat)
    (store : List ApprovalRequest) (sendResult : Except String Unit)
    (lookup : Nat → Option ApprovalRequest) :
    ApproveResult × List ApprovalRequest :=
  if !twilioConfigured then (ApproveResult.error "Twilio not configured", store)
  else if !pyTruthy approvalPhone then
    (ApproveResult.error "APPROVAL_PHONE not configured in environment variables", store)
  else
    let approval := mkApproval description request_id (approvalPhone.getD "") now
    let store1 := store ++ [approval]
    match sendResult with
    | Except.error e =>
      (ApproveResult.error ("Failed to send WhatsApp message: " ++ e),
       store1.eraseP (fun r => r.id == approval.id))
    | Except.ok _ => (waitLoop lookup (now + 300) now, store1)

/-- The condition under which iteration `j` of the wait loop neither returns
a decision nor expires: the row is still `pending` (or momentarily absent)
and the poll instant has not passed `expiresAt`. -/
def pollContinues (lookup : Nat → Option ApprovalRequest)
    (expiresAt start j : Nat) : Bool :=
  (match lookup j with
   | some r => r.status == "pending"
   | none => true) && decide (start + 2 * j ≤ expiresAt)

/-- Spec §3 record invariant: `responded_at` and `response` are unset iff
the status is `pending`. -/
def invariantReq (r : ApprovalRequest) : Prop :=
  r.status = "pending" ↔ (r.responded_at = none ∧ r.response = none)

/-! ### Concrete sample inputs used by closed theorems and witnesses -/

/-- A pending request as `permissions__approve` creates it at `t0 = 0`:
lowercase 8-character short id, 5-minute expiry, recipient stored verbatim. -/
def rowPending : ApprovalRequest :=
  { id := "abc12345"
    request_id := "abc12345-6789-4abc-8def-101112131415"
    description := "Execute command"
    requester := "Claude"
    phone_number := "+15551234567"
    status := "pending"
    created_at := 0
    responded_at := none
    response := none
    expires_at := 300 }

/-- The same request after an approval was committed at `t0 + 10s`. -/
def rowApproved : ApprovalRequest :=
  { rowPending with status := "approved", responded_at := some 10,
                    response := some "approve_abc12345" }

/-- A request stored under a configuration where `APPROVAL_PHONE` itself
carries the `whatsapp:` channel prefix. -/
def rowPrefixedPhone : ApprovalRequest :=
  { rowPending with phone_number := "whatsapp:+15551234567" }

/-- A quick-reply button callback for `rowPending` from its recipient. -/
def fdButtonApprove : FormData :=
  { ButtonPayload := some "approve_abc12345", From := some "whatsapp:+15551234567" }

/-- A free-text callback `"approve abc12345"` from the registered recipient. -/
def fdFreeText : FormData :=
  { Body := some "approve abc12345", From := some "whatsapp:+15551234567" }

/-! ### Helper lemmas about the embedded string primitives and the store -/

theorem replaceAllAux_length_le (pat : List Char) (fuel : Nat) :
    ∀ s : List Char, (replaceAllAux pat fuel s).length ≤ s.length := by
  induction fuel with
  | zero => intro s; cases s <;> simp [replaceAllAux]
  | succ n ih =>
    intro s
    cases s with
    | nil => simp [replaceAllAux]
    | cons c cs =>
      simp only [replaceAllAux]
      split
      · calc (replaceAllAux pat n (cs.drop (pat.length - 1))).length
            ≤ (cs.drop (pat.length - 1)).length := ih _
          _ ≤ (c :: cs).length := by simp [List.length_drop]; omega
      · simpa using ih cs

theorem replaceAllAux_length_lt (pat : List Char) (hne : pat ≠ []) (fuel : Nat)
    (s : List Char) (hpre : pat.isPrefixOf s = true) :
    (replaceAllAux pat (fuel + 1) s).length < s.length := by
  cases s with
  | nil =>
    cases pat with
    | nil => exact absurd rfl hne
    | cons p ps => simp [List.isPrefixOf] at hpre
  | cons c cs =>
    simp only [replaceAllAux, if_pos (And.intro hpre hne)]
    calc (replaceAllAux pat fuel (cs.drop (pat.length - 1))).length
        ≤ (cs.drop (pat.length - 1)).length := replaceAllAux_length_le _ _ _
      _ < (c :: cs).length := by simp [List.length_drop]; omega

theorem normalizePhone_ne_of_prefixed (P : String)
    (h : pyStartsWith P "whatsapp:" = true) : normalizePhone P ≠ P := by
  unfold normalizePhone
  rw [if_pos h]
  unfold pyStartsWith at h
  intro heq
  have hdata : (replaceAllAux "whatsapp:".data P.data.length P.data) = P.data :=
    congrArg String.data heq
  have hlen : (replaceAllAux "whatsapp:".data P.data.length P.data).length
      < P.data.length := by
    cases hP : P.data with
    | nil =>
      rw [hP] at h
      have : List.isPrefixOf "whatsapp:".data ([] : List Char) = false := by decide
      rw [this] at h
      cases h
    | cons c cs =>
      rw [hP] at h
      exact replaceAllAux_length_lt _ (by decide) cs.length _ h
  rw [hdata] at hlen
  exact lt_irrefl _ hlen

theorem pyTruthy_of_whatsapp_prefixed (P : String)
    (h : pyStartsWith P "whatsapp:" = true) : pyTruthy (some P) = true := by
  unfold pyStartsWith at h
  show (!P.data.isEmpty) = true
  cases hP : P.data with
  | nil =>
    rw [hP] at h
    have : List.isPrefixOf "whatsapp:".data ([] : List Char) = false := by decide
    rw [this] at h
    cases h
  | cons c cs => rfl

/-- Any non-`success` answer of the core passes through the confirmation
stage untouched. -/
theorem twilioWebhook_of_core_error (fd : FormData) (store : List ApprovalRequest)
    (now : Nat) (twc : Bool) (conf : Except String Unit) (m : String)
    (s : List ApprovalRequest)
    (h : webhookCore fd store now = (WebhookResult.error m, s)) :
    twilioWebhook fd store now twc conf = (WebhookResult.error m, s) := by
  unfold twilioWebhook
  rw [h]

/-- Reduction of `webhookCore` to its database stage, once the two guards
pass and the payload decodes. -/
theorem webhookCore_parsed (fd : FormData) (store : List ApprovalRequest)
    (now : Nat) (resp sid txt : String)
    (hcb : (pyTruthy fd.MessageStatus && !pyTruthy fd.Body) = false)
    (hfrom : pyTruthy fd.From = true)
    (hp : parseResponse fd = ParseOutcome.parsed resp sid txt) :
    webhookCore fd store now =
      match store.find? (matchesReq sid (normalizePhone (fd.From.getD ""))) with
      | none => (WebhookResult.error "Request not found", store)
      | some approval =>
        if approval.status ≠ "pending" then
          (WebhookResult.error "Request already processed", store)
        else if now > approval.expires_at then
          (WebhookResult.error "Request expired", store)
        else
          (WebhookResult.success approval.request_id resp,
           updateFirst (matchesReq sid (normalizePhone (fd.From.getD "")))
             (applyDecision resp txt now) store) := by
  unfold webhookCore
  rw [hcb, hfrom, hp]
  rw [if_neg (by decide : ¬(false = true)), if_neg (by decide : ¬((!true) = true))]

/-- Database stage when the recipient-filtered lookup finds a row. -/
theorem webhookCore_found (fd : FormData) (store : List ApprovalRequest)
    (now : Nat) (resp sid txt : String) (r : ApprovalRequest)
    (hcb : (pyTruthy fd.MessageStatus && !pyTruthy fd.Body) = false)
    (hfrom : pyTruthy fd.From = true)
    (hp : parseResponse fd = ParseOutcome.parsed resp sid txt)
    (hfind : store.find? (matchesReq sid (normalizePhone (fd.From.getD ""))) = some r) :
    webhookCore fd store now =
      if r.status ≠ "pending" then
        (WebhookResult.error "Request already processed", store)
      else if now > r.expires_at then
        (WebhookResult.error "Request expired", store)
      else
        (WebhookResult.success r.request_id resp,
         updateFirst (matchesReq sid (normalizePhone (fd.From.getD "")))
           (applyDecision resp txt now) store) := by
  rw [webhookCore_parsed fd store now resp sid txt hcb hfrom hp, hfind]

/-- Database stage when the recipient-filtered lookup comes back empty. -/
theorem webhookCore_notFound (fd : FormData) (store : List ApprovalRequest)
    (now : Nat) (resp sid txt : String)
    (hcb : (pyTruthy fd.MessageStatus && !pyTruthy fd.Body) = false)
    (hfrom : pyTruthy fd.From = true)
    (hp : parseResponse fd = ParseOutcome.parsed resp sid txt)
    (hnone : store.find? (matchesReq sid (normalizePhone (fd.From.getD ""))) = none) :
    webhookCore fd store now = (WebhookResult.error "Request not found", store) := by
  rw [webhookCore_parsed fd store now resp sid txt hcb hfrom hp, hnone]

/-! ### Claim theorems -/

set_option maxRecDepth 4000 in
/-- C1: the spec's scenario — pending request with lowercase short id
`abc12345`, free-text reply `"approve abc12345"` from the registered
recipient before expiry — does NOT transition the store to `approved`.
`twilio_webhook` upper-cases the whole trimmed body (line 262), so the
extracted id is `"ABC12345"`, the case-sensitive lookup misses the row, and
the handler answers "Request not found" leaving the row pending; polling the
unchanged store never returns `Approved` (with the loop's own 2-second ideal
timing it exhausts the 300-second budget).  This contradicts the reply
instructions the server itself sends ("Reply: APPROVE {short_id}" with the
lowercase id, lines 134-136), so the code, not the spec, is at fault. -/
theorem freetext_uppercased_id_not_found :
    parseResponse fdFreeText =
      ParseOutcome.parsed "approved" "ABC12345" "APPROVE ABC12345" ∧
    twilioWebhook fdFreeText [rowPending] 10 true (Except.ok ()) =
      (WebhookResult.error "Request not found", [rowPending]) ∧
    rowPending.status = "pending" ∧
    waitLoop (fun _ => some rowPending) 300 0 =
      ApproveResult.error "Request timed out" := by
  refine ⟨by decide, by decide, rfl, by decide⟩

/-- C2: once a request's stored status is `approved` or `denied`, a further
webhook callback that decodes to the same id and sender is answered
"Request already processed" and the store — in particular `status`,
`responded_at` and `response` — is left exactly as it was. -/
theorem webhook_already_resolved (fd : FormData) (store : List ApprovalRequest)
    (now : Nat) (twc : Bool) (conf : Except String Unit)
    (resp sid txt : String) (r : ApprovalRequest)
    (hcb : (pyTruthy fd.MessageStatus && !pyTruthy fd.Body) = false)
    (hfrom : pyTruthy fd.From = true)
    (hp : parseResponse fd = ParseOutcome.parsed resp sid txt)
    (hfind : store.find? (matchesReq sid (normalizePhone (fd.From.getD ""))) = some r)
    (hst : r.status = "approved" ∨ r.status = "denied") :
    twilioWebhook fd store now twc conf =
      (WebhookResult.error "Request already processed", store) := by
  apply twilioWebhook_of_core_error
  rw [webhookCore_found fd store now resp sid txt r hcb hfrom hp hfind]
  have hne : r.status ≠ "pending" := by
    rcases hst with h | h <;> rw [h] <;> decide
  rw [if_pos hne]

/-- C2 witness: a second button callback for the already-approved request. -/
theorem webhook_already_resolved_witness :
    twilioWebhook fdButtonApprove [rowApproved] 20 true (Except.ok ()) =
      (WebhookResult.error "Request already processed", [rowApproved]) :=
  webhook_already_resolved fdButtonApprove [rowApproved] 20 true (Except.ok ())
    "approved" "abc12345" "approve_abc12345" rowApproved
    (by decide) (by decide) (by decide) (by decide) (Or.inl (by decide))

/-- C3: a well-formed callback that reaches a still-`pending` request whose
`expires_at` has passed is answered "Request expired" and the store is left
unchanged: the status stays `pending` and no `responded_at`/`response` is
written. -/
theorem webhook_expired_unchanged (fd : FormData) (store : List ApprovalRequest)
    (now : Nat) (twc : Bool) (conf : Except String Unit)
    (resp sid txt : String) (r : ApprovalRequest)
    (hcb : (pyTruthy fd.MessageStatus && !pyTruthy fd.Body) = false)
    (hfrom : pyTruthy fd.From = true)
    (hp : parseResponse fd = ParseOutcome.parsed resp sid txt)
    (hfind : store.find? (matchesReq sid (normalizePhone (fd.From.getD ""))) = some r)
    (hst : r.status = "pending")
    (hexp : now > r.expires_at) :
    twilioWebhook fd store now twc conf =
      (WebhookResult.error "Request expired", store) := by
  apply twilioWebhook_of_core_error
  rw [webhookCore_found fd store now resp sid txt r hcb hfrom hp hfind]
  rw [if_neg (by simp [hst])]
  rw [if_pos hexp]

/-- C3 witness: the spec's second scenario, a callback at `t0 + 5m30s`. -/
theorem webhook_expired_unchanged_witness :
    twilioWebhook fdButtonApprove [rowPending] 330 true (Except.ok ()) =
      (WebhookResult.error "Request expired", [rowPending]) :=
  webhook_expired_unchanged fdButtonApprove [rowPending] 330 true (Except.ok ())
    "approved" "abc12345" "approve_abc12345" rowPending
    (by decide) (by decide) (by decide) (by decide) (by decide) (by decide)

/-- C5: when the (prefix-normalized) sender differs from the
`phone_number` stored with every request carrying the decoded id, the
recipient-filtered lookup finds nothing, the handler answers
"Request not found", and no stored request — that one or any other — is
modified. -/
theorem webhook_recipient_isolation (fd : FormData) (store : List ApprovalRequest)
    (now : Nat) (twc : Bool) (conf : Except String Unit)
    (resp sid txt : String)
    (hcb : (pyTruthy fd.MessageStatus && !pyTruthy fd.Body) = false)
    (hfrom : pyTruthy fd.From = true)
    (hp : parseResponse fd = ParseOutcome.parsed resp sid txt)
    (hiso : ∀ x ∈ store, x.id = sid →
      x.phone_number ≠ normalizePhone (fd.From.getD "")) :
    twilioWebhook fd store now twc conf =
      (WebhookResult.error "Request not found", store) := by
  apply twilioWebhook_of_core_error
  apply webhookCore_notFound fd store now resp sid txt hcb hfrom hp
  rw [List.find?_eq_none]
  intro x hx
  simp only [matchesReq, Bool.and_eq_true, beq_iff_eq, not_and]
  exact hiso x hx

/-- C5 witness: a callback for `rowPending`'s id from a different sender. -/
theorem webhook_recipient_isolation_witness :
    twilioWebhook
      { ButtonPayload := some "approve_abc12345", From := some "whatsapp:+19998887777" }
      [rowPending] 10 true (Except.ok ()) =
      (WebhookResult.error "Request not found", [rowPending]) :=
  webhook_recipient_isolation
    { ButtonPayload := some "approve_abc12345", From := some "whatsapp:+19998887777" }
    [rowPending] 10 true (Except.ok ()) "approved" "abc12345" "approve_abc12345"
    (by decide) (by decide) (by decide) (by decide)

/-- C9: `permissions__approve` stores the configured recipient address
verbatim as `phone_number` (first conjunct), while `twilio_webhook` strips
every `whatsapp:` occurrence from the inbound sender before matching
(line 280).  Hence, whenever the configured address `P` itself starts with
`whatsapp:`, the normalized sender of a callback from `P` can never equal
the stored `P` (stripping strictly shortens it), so every response that
decodes — whatever its id — is answered "Request not found" and the store is
never modified: no request can be resolved through the webhook. -/
theorem whatsapp_prefixed_config_never_resolves (P : String)
    (fd : FormData) (store : List ApprovalRequest)
    (now now' : Nat) (twc : Bool) (conf : Except String Unit)
    (d rid resp sid txt : String)
    (hpre : pyStartsWith P "whatsapp:" = true)
    (hall : ∀ x ∈ store, x.phone_number = P)
    (hF : fd.From = some P)
    (hcb : (pyTruthy fd.MessageStatus && !pyTruthy fd.Body) = false)
    (hp : parseResponse fd = ParseOutcome.parsed resp sid txt) :
    (mkApproval d rid P now').phone_number = P ∧
    twilioWebhook fd store now twc conf =
      (WebhookResult.error "Request not found", store) := by
  constructor
  · rfl
  · have hfrom : pyTruthy fd.From = true := by
      rw [hF]; exact pyTruthy_of_whatsapp_prefixed P hpre
    apply twilioWebhook_of_core_error
    apply webhookCore_notFound fd store now resp sid txt hcb hfrom hp
    rw [List.find?_eq_none]
    intro x hx
    simp only [matchesReq, Bool.and_eq_true, beq_iff_eq, not_and]
    intro _
    rw [hall x hx, hF]
    exact fun hcontra => normalizePhone_ne_of_prefixed P hpre hcontra.symm

/-- C9 witness: prefixed configured address, response from that very
address, well-formed button payload — still "Request not found". -/
theorem whatsapp_prefixed_config_never_resolves_witness :
    (mkApproval "Execute command" "abc12345-6789-4abc-8def-101112131415"
        "whatsapp:+15551234567" 0).phone_number = "whatsapp:+15551234567" ∧
    twilioWebhook fdButtonApprove [rowPrefixedPhone] 10 true (Except.ok ()) =
      (WebhookResult.error "Request not found", [rowPrefixedPhone]) :=
  whatsapp_prefixed_config_never_resolves "whatsapp:+15551234567"
    fdButtonApprove [rowPrefixedPhone] 10 0 true (Except.ok ())
    "Execute command" "abc12345-6789-4abc-8def-101112131415"
    "approved" "abc12345" "approve_abc12345"
    (by decide) (by decide) rfl (by decide) (by decide)

/-- C4: when the Twilio send raises after the row was inserted, the
`except` block of `permissions__approve` deletes the just-created row (by
primary key) and returns the send-failure error: the store is back to what
it was before the call, so no request with the new short id remains. -/
theorem approve_send_failure_rollback (phone d rid : String) (now : Nat)
    (store : List ApprovalRequest) (e : String)
    (lookup : Nat → Option ApprovalRequest)
    (hph : pyTruthy (some phone) = true)
    (hnew : ∀ x ∈ store, x.id ≠ pyTake rid 8) :
    permissionsApprove true (some phone) d rid now store (Except.error e) lookup =
      (ApproveResult.error ("Failed to send WhatsApp message: " ++ e), store) ∧
    ∀ x ∈ (permissionsApprove true (some phone) d rid now store
        (Except.error e) lookup).2, x.id ≠ pyTake rid 8 := by
  have hmain : permissionsApprove true (some phone) d rid now store
      (Except.error e) lookup =
      (ApproveResult.error ("Failed to send WhatsApp message: " ++ e), store) := by
    unfold permissionsApprove
    rw [if_neg (by decide : ¬((!true) = true))]
    rw [hph, if_neg (by decide : ¬((!true) = true))]
    have hid : (mkApproval d rid ((some phone).getD "") now).id = pyTake rid 8 := rfl
    have herase :
        (store ++ [mkApproval d rid ((some phone).getD "") now]).eraseP
          (fun r => r.id == (mkApproval d rid ((some phone).getD "") now).id) =
          store := by
      rw [List.eraseP_append_right _ (by
        intro b hb
        simp only [hid, beq_iff_eq]
        exact hnew b hb)]
      rw [List.eraseP_cons_of_pos (by simp)]
      simp
    rw [Prod.mk.injEq]
    exact ⟨rfl, herase⟩
  refine ⟨hmain, ?_⟩
  rw [hmain]
  exact hnew

/-- C4 witness: send failure on an empty store leaves the store empty. -/
theorem approve_send_failure_rollback_witness :
    permissionsApprove true (some "+15551234567") "Execute command"
        "abc12345-6789-4abc-8def-101112131415" 0 [] (Except.error "boom")
        (fun _ => none) =
      (ApproveResult.error "Failed to send WhatsApp message: boom", []) :=
  (approve_send_failure_rollback "+15551234567" "Execute command"
    "abc12345-6789-4abc-8def-101112131415" 0 [] "boom" (fun _ => none)
    (by decide) (by decide)).1

/-- C8 counterexample: with Twilio configured, a raising confirmation send
after a successfully committed decision makes the handler propagate the
exception instead of returning the claimed `Success` JSON; the same input
with a succeeding send does return that `Success` value. -/
theorem confirmation_failure_crashes_cex :
    (twilioWebhook fdButtonApprove [rowPending] 10 true (Except.error "boom")).1 =
      WebhookResult.exn "boom" ∧
    (twilioWebhook fdButtonApprove [rowPending] 10 true (Except.error "boom")).1 ≠
      WebhookResult.success "abc12345-6789-4abc-8def-101112131415" "approved" ∧
    (twilioWebhook fdButtonApprove [rowPending] 10 true (Except.ok ())).1 =
      WebhookResult.success "abc12345-6789-4abc-8def-101112131415" "approved" :=
  ⟨by decide, by decide, by decide⟩

/-- C8 amended: a confirmation-send failure after a committed decision does
not alter the committed store — the final table contents are exactly those
of a run whose confirmation succeeds — but the handler does not return the
`Success` result: it propagates the send exception. -/
theorem confirmation_failure_nonfatal_amended (fd : FormData)
    (store : List ApprovalRequest) (now : Nat) (e rid resp : String)
    (h : (twilioWebhook fd store now true (Except.ok ())).1 =
      WebhookResult.success rid resp) :
    (twilioWebhook fd store now true (Except.error e)).1 = WebhookResult.exn e ∧
    (twilioWebhook fd store now true (Except.error e)).2 =
      (twilioWebhook fd store now true (Except.ok ())).2 := by
  unfold twilioWebhook at h ⊢
  rcases hc : webhookCore fd store now with ⟨res, store'⟩
  rw [hc] at h
  cases res <;> simp_all

/-- C8 amended witness: concrete committed decision, failing confirmation. -/
theorem confirmation_failure_nonfatal_amended_witness :
    (twilioWebhook fdButtonApprove [rowPending] 10 true (Except.error "boom")).1 =
      WebhookResult.exn "boom" ∧
    (twilioWebhook fdButtonApprove [rowPending] 10 true (Except.error "boom")).2 =
      (twilioWebhook fdButtonApprove [rowPending] 10 true (Except.ok ())).2 :=
  confirmation_failure_nonfatal_amended fdButtonApprove [rowPending] 10 "boom"
    "abc12345-6789-4abc-8def-101112131415" "approved" (by decide)

/-- Membership in `updateFirst p f l`: an element is either untouched from
`l`, or the image under `f` of the first element satisfying `p`. -/
theorem mem_updateFirst {α : Type} (p : α → Bool) (f : α → α) (l : List α)
    (y : α) (h : y ∈ updateFirst p f l) :
    y ∈ l ∨ ∃ x, l.find? p = some x ∧ y = f x := by
  induction l with
  | nil => simp [updateFirst] at h
  | cons a as ih =>
    simp only [updateFirst] at h
    by_cases hp : p a = true
    · rw [if_pos hp] at h
      rcases List.mem_cons.mp h with h1 | h1
      · exact Or.inr ⟨a, List.find?_cons_of_pos _ hp, h1⟩
      · exact Or.inl (List.mem_cons_of_mem _ h1)
    · rw [if_neg hp] at h
      rcases List.mem_cons.mp h with h1 | h1
      · exact Or.inl (h1 ▸ List.mem_cons_self a as)
      · rcases ih h1 with h2 | ⟨x, hx1, hx2⟩
        · exact Or.inl (List.mem_cons_of_mem _ h2)
        · exact Or.inr ⟨x, by rw [List.find?_cons_of_neg _ hp]; exact hx1, hx2⟩

/-- Every triple the payload decoder emits carries `"approved"` or
`"denied"` as the decision (all three branches only build these). -/
theorem parseResponse_decision (fd : FormData) (resp sid txt : String)
    (h : parseResponse fd = ParseOutcome.parsed resp sid txt) :
    resp = "approved" ∨ resp = "denied" := by
  simp only [parseResponse] at h
  repeat' split at h
  all_goals simp_all

/-- The confirmation stage never touches the table: the store component of
`twilio_webhook` is that of its database stage. -/
theorem twilioWebhook_store_eq (fd : FormData) (store : List ApprovalRequest)
    (now : Nat) (twc : Bool) (conf : Except String Unit) :
    (twilioWebhook fd store now twc conf).2 = (webhookCore fd store now).2 := by
  unfold twilioWebhook
  rcases h : webhookCore fd store now with ⟨res, s'⟩
  cases res <;> cases twc <;> cases conf <;> simp

/-- Provenance of every row after the database stage: it was already in the
store, or it is the guarded update (`pending`, unexpired, first match of the
recipient-filtered lookup) of a stored row. -/
theorem webhookCore_mem_of_update (fd : FormData) (store : List ApprovalRequest)
    (now : Nat) (y : ApprovalRequest)
    (h : y ∈ (webhookCore fd store now).2) :
    y ∈ store ∨ ∃ resp sid txt x,
      parseResponse fd = ParseOutcome.parsed resp sid txt ∧
      store.find? (matchesReq sid (normalizePhone (fd.From.getD ""))) = some x ∧
      x.status = "pending" ∧ ¬ now > x.expires_at ∧
      y = applyDecision resp txt now x := by
  cases hcb : (pyTruthy fd.MessageStatus && !pyTruthy fd.Body) with
  | true =>
    have hw : webhookCore fd store now =
        (WebhookResult.ok "Status callback received", store) := by
      unfold webhookCore
      rw [hcb, if_pos rfl]
    rw [hw] at h
    exact Or.inl h
  | false =>
    cases hfrom : pyTruthy fd.From with
    | false =>
      have hw : webhookCore fd store now =
          (WebhookResult.error "Missing From field", store) := by
        unfold webhookCore
        rw [hcb, if_neg (by decide : ¬(false = true)), hfrom,
          if_pos (show (!false) = true from rfl)]
      rw [hw] at h
      exact Or.inl h
    | true =>
      cases hpr : parseResponse fd with
      | ignored reason =>
        have hw : webhookCore fd store now =
            (WebhookResult.ignored reason, store) := by
          unfold webhookCore
          rw [hcb, if_neg (by decide : ¬(false = true)), hfrom,
            if_neg (by decide : ¬((!true) = true)), hpr]
        rw [hw] at h
        exact Or.inl h
      | parsed resp sid txt =>
        cases hfind : store.find?
            (matchesReq sid (normalizePhone (fd.From.getD ""))) with
        | none =>
          rw [webhookCore_notFound fd store now resp sid txt hcb hfrom hpr hfind] at h
          exact Or.inl h
        | some x =>
          rw [webhookCore_found fd store now resp sid txt x hcb hfrom hpr hfind] at h
          by_cases hst : x.status ≠ "pending"
          · rw [if_pos hst] at h
            exact Or.inl h
          · rw [if_neg hst] at h
            by_cases hexp : now > x.expires_at
            · rw [if_pos hexp] at h
              exact Or.inl h
            · rw [if_neg hexp] at h
              rcases mem_updateFirst _ _ _ _ h with h1 | ⟨x', hx1, hx2⟩
              · exact Or.inl h1
              · rw [hfind] at hx1
                injection hx1 with hxx
                exact Or.inr ⟨resp, sid, txt, x, rfl, hfind, not_not.mp hst,
                  hexp, by rw [hx2, hxx]⟩

/-- C6: the record invariant of spec §3 holds after creation and after every
webhook update.  First conjunct: a freshly created row is `pending` with
`responded_at`/`response` unset.  Second conjunct: any row present after a
webhook call that was not already stored is the update of a stored row that
was `pending` and unexpired at the call's instant, its new status is
`approved` or `denied` (never anything else), its `responded_at`/`response`
are now set, its identity fields are untouched, and the iff-invariant holds
for it again. -/
theorem lifecycle_status_invariant :
    (∀ d rid ph now, invariantReq (mkApproval d rid ph now) ∧
      (mkApproval d rid ph now).status = "pending" ∧
      (mkApproval d rid ph now).responded_at = none ∧
      (mkApproval d rid ph now).response = none) ∧
    (∀ fd store now twc conf y,
      y ∈ (twilioWebhook fd store now twc conf).2 →
      y ∈ store ∨ ∃ x, x ∈ store ∧
        x.status = "pending" ∧ ¬ now > x.expires_at ∧
        (y.status = "approved" ∨ y.status = "denied") ∧
        y.responded_at = some now ∧ (∃ t, y.response = some t) ∧
        y.id = x.id ∧ y.expires_at = x.expires_at ∧ invariantReq y) := by
  constructor
  · intro d rid ph now
    refine ⟨?_, rfl, rfl, rfl⟩
    unfold invariantReq mkApproval
    simp
  · intro fd store now twc conf y h
    rw [twilioWebhook_store_eq fd store now twc conf] at h
    rcases webhookCore_mem_of_update fd store now y h with
      h1 | ⟨resp, sid, txt, x, hpr, hfind, hst, hexp, hy⟩
    · exact Or.inl h1
    · right
      have hys : y.status = resp := by rw [hy]; rfl
      have hyr : y.responded_at = some now := by rw [hy]; rfl
      have hdec := parseResponse_decision fd resp sid txt hpr
      refine ⟨x, List.mem_of_find?_eq_some hfind, hst, hexp, ?_, hyr,
        ⟨txt, by rw [hy]; rfl⟩, by rw [hy]; rfl, by rw [hy]; rfl, ?_⟩
      · rw [hys]; exact hdec
      · unfold invariantReq
        constructor
        · intro hp0
          rcases hdec with ha | ha <;> rw [hys, ha] at hp0 <;>
            exact absurd hp0 (by decide)
        · intro hcontra
          rw [hyr] at hcontra
          exact absurd hcontra.1 (by simp)

/-- C6 witness: the freshly created row satisfies the invariant, and the
concrete approved row produced by a webhook update is the guarded update of
the stored pending row. -/
theorem lifecycle_status_invariant_witness :
    (invariantReq (mkApproval "Execute command"
      "abc12345-6789-4abc-8def-101112131415" "+15551234567" 0)) ∧
    (rowApproved ∈ [rowPending] ∨ ∃ x, x ∈ [rowPending] ∧
      x.status = "pending" ∧ ¬ (10 : Nat) > x.expires_at ∧
      (rowApproved.status = "approved" ∨ rowApproved.status = "denied") ∧
      rowApproved.responded_at = some 10 ∧
      (∃ t, rowApproved.response = some t) ∧
      rowApproved.id = x.id ∧ rowApproved.expires_at = x.expires_at ∧
      invariantReq rowApproved) :=
  ⟨(lifecycle_status_invariant.1 "Execute command"
      "abc12345-6789-4abc-8def-101112131415" "+15551234567" 0).1,
   lifecycle_status_invariant.2 fdButtonApprove [rowPending] 10 true
     (Except.ok ()) rowApproved (by decide)⟩

/-- One continuing iteration of the wait loop: still pending (or row
momentarily absent) and poll instant within the window moves to next poll. -/
theorem waitLoopGo_step (lookup : Nat → Option ApprovalRequest)
    (e s k fuel : Nat) (h2 : 2 * k < 300)
    (hc : pollContinues lookup e s k = true) :
    waitLoopGo lookup e s (fuel + 1) k = waitLoopGo lookup e s fuel (k + 1) := by
  have hcc := hc
  unfold pollContinues at hcc
  rw [Bool.and_eq_true] at hcc
  have hle : s + 2 * k ≤ e := of_decide_eq_true hcc.2
  have hmat := hcc.1
  simp only [waitLoopGo]
  rw [if_pos h2]
  split
  · rename_i r hl
    rw [hl] at hmat
    simp only [beq_iff_eq] at hmat
    rw [if_neg (by simp [hmat] : ¬(r.status ≠ "pending"))]
    rw [if_neg (by omega : ¬(s + 2 * k > e))]
  · rw [if_neg (by omega : ¬(s + 2 * k > e))]

/-- Advancing the wait loop across a block of continuing iterations. -/
theorem waitLoopGo_advance (lookup : Nat → Option ApprovalRequest)
    (e s : Nat) :
    ∀ d k, k + d ≤ 150 →
      (∀ j, k ≤ j → j < k + d → pollContinues lookup e s j = true) →
      waitLoopGo lookup e s (150 - k) k =
        waitLoopGo lookup e s (150 - (k + d)) (k + d) := by
  intro d
  induction d with
  | zero => intro k _ _; rfl
  | succ n ih =>
    intro k hk hcon
    have h1 : waitLoopGo lookup e s (150 - k) k =
        waitLoopGo lookup e s (150 - (k + 1)) (k + 1) := by
      have hsucc : 150 - k = (150 - (k + 1)) + 1 := by omega
      rw [hsucc]
      exact waitLoopGo_step lookup e s k (150 - (k + 1)) (by omega)
        (hcon k le_rfl (by omega))
    rw [h1]
    have h2 := ih (k + 1) (by omega) (fun j hj1 hj2 => hcon j (by omega) (by omega))
    rw [h2]
    have h3 : k + 1 + n = k + (n + 1) := by omega
    rw [h3]

/-- C10: for a valid request (Twilio configured, recipient configured, send
succeeds) `permissions__approve` inserts the row and enters the wait loop,
whose value is one of the three claimed outcomes and is characterized by:
`Approved`/`Denied` at the first poll that sees a non-`pending` status,
`Error("Request expired")` at the first in-budget poll past `expires_at`
while still pending, `Error("Request timed out")` when all 150 polls of the
300-second budget (2-second interval) continue. -/
theorem approve_wait_loop_characterized :
    (∀ phone d rid now store lookup, pyTruthy (some phone) = true →
      permissionsApprove true (some phone) d rid now store (Except.ok ()) lookup =
        (waitLoop lookup (now + 300) now,
         store ++ [mkApproval d rid phone now])) ∧
    (∀ lookup e s, waitLoop lookup e s = ApproveResult.approved ∨
      (∃ m, waitLoop lookup e s = ApproveResult.denied m) ∨
      (∃ m, waitLoop lookup e s = ApproveResult.error m)) ∧
    (∀ lookup e s, (∀ j, j < 150 → pollContinues lookup e s j = true) →
      waitLoop lookup e s = ApproveResult.error "Request timed out") ∧
    (∀ lookup e s k r, k < 150 →
      (∀ j, j < k → pollContinues lookup e s j = true) →
      lookup k = some r → r.status ≠ "pending" →
      waitLoop lookup e s =
        if r.status = "approved" then ApproveResult.approved
        else ApproveResult.denied "Request was denied") ∧
    (∀ lookup e s k, k < 150 →
      (∀ j, j < k → pollContinues lookup e s j = true) →
      (∀ r, lookup k = some r → r.status = "pending") → s + 2 * k > e →
      waitLoop lookup e s = ApproveResult.error "Request expired") := by
  refine ⟨?_, ?_, ?_, ?_, ?_⟩
  · intro phone d rid now store lookup hph
    unfold permissionsApprove
    rw [if_neg (by decide : ¬((!true) = true))]
    rw [hph, if_neg (by decide : ¬((!true) = true))]
    rfl
  · intro lookup e s
    cases h : waitLoop lookup e s with
    | approved => exact Or.inl rfl
    | denied m => exact Or.inr (Or.inl ⟨m, rfl⟩)
    | error m => exact Or.inr (Or.inr ⟨m, rfl⟩)
  · intro lookup e s hall
    have h := waitLoopGo_advance lookup e s 150 0 (by omega)
      (fun j hj1 hj2 => hall j (by omega))
    norm_num at h
    unfold waitLoop
    rw [h]
    rfl
  · intro lookup e s k r hk hcon hl hst
    have h := waitLoopGo_advance lookup e s k 0 (by omega)
      (fun j hj1 hj2 => hcon j (by omega))
    norm_num at h
    unfold waitLoop
    rw [h]
    have hsucc : 150 - k = (150 - (k + 1)) + 1 := by omega
    rw [hsucc]
    simp only [waitLoopGo]
    rw [if_pos (by omega : 2 * k < 300)]
    split
    · rename_i r' hl'
      rw [hl] at hl'
      injection hl' with hrr
      rw [← hrr]
      rw [if_pos hst]
    · rename_i hl'
      rw [hl] at hl'
      cases hl'
  · intro lookup e s k hk hcon hpend hgt
    have h := waitLoopGo_advance lookup e s k 0 (by omega)
      (fun j hj1 hj2 => hcon j (by omega))
    norm_num at h
    unfold waitLoop
    rw [h]
    have hsucc : 150 - k = (150 - (k + 1)) + 1 := by omega
    rw [hsucc]
    simp only [waitLoopGo]
    rw [if_pos (by omega : 2 * k < 300)]
    split
    · rename_i r' hl'
      rw [if_neg (by simp [hpend r' hl'] : ¬(r'.status ≠ "pending"))]
      rw [if_pos hgt]
    · rw [if_pos hgt]

/-- C10 witness: valid request with a never-resolving store reduces to the
wait loop, and a wait loop that always continues within a large window
returns the timeout error. -/
theorem approve_wait_loop_characterized_witness :
    permissionsApprove true (some "+15551234567") "Execute command"
        "abc12345-6789-4abc-8def-101112131415" 0 [] (Except.ok ())
        (fun _ => none) =
      (waitLoop (fun _ => none) 300 0,
       [mkApproval "Execute command" "abc12345-6789-4abc-8def-101112131415"
          "+15551234567" 0]) ∧
    waitLoop (fun _ => none) 10000 0 = ApproveResult.error "Request timed out" :=
  ⟨approve_wait_loop_characterized.1 "+15551234567" "Execute command"
      "abc12345-6789-4abc-8def-101112131415" 0 [] (fun _ => none) (by decide),
   approve_wait_loop_characterized.2.2.1 (fun _ => none) 10000 0
     (by decide : ∀ j, j < 150 →
       pollContinues (fun _ => none) 10000 0 j = true)⟩

/-- Splitting a separator-free string yields it whole. -/
theorem pySplitChar_no_sep (sep : Char) (b : List Char) (h : sep ∉ b) :
    pySplitChar sep b = [b] := by
  induction b with
  | nil => rfl
  | cons c cs ih =>
    have hcs : sep ∉ cs := fun hm => h (List.mem_cons_of_mem _ hm)
    have hc : ¬(c = sep) := fun he => h (by rw [he]; exact List.mem_cons_self _ _)
    simp only [pySplitChar, ih hcs]
    rw [if_neg hc]

/-- Splitting `a ++ sep :: b` with `sep` occurring nowhere in `a` or `b`
gives exactly the two-field shape the webhook accepts. -/
theorem pySplitChar_single (sep : Char) (a b : List Char)
    (ha : sep ∉ a) (hb : sep ∉ b) :
    pySplitChar sep (a ++ sep :: b) = [a, b] := by
  induction a with
  | nil =>
    simp [pySplitChar, pySplitChar_no_sep sep b hb]
  | cons c cs ih =>
    have hcs : sep ∉ cs := fun hm => ha (List.mem_cons_of_mem _ hm)
    have hc : ¬(c = sep) := fun he => ha (by rw [he]; exact List.mem_cons_self _ _)
    rw [List.cons_append]
    simp only [pySplitChar]
    rw [ih hcs]
    simp only [if_neg hc]

theorem isPrefixOf_append_self (a b : List Char) :
    a.isPrefixOf (a ++ b) = true := by
  induction a with
  | nil => cases b <;> rfl
  | cons c cs ih =>
    simp only [List.cons_append, List.isPrefixOf, beq_self_eq_true, Bool.true_and]
    exact ih

theorem mem_of_isPrefixOf {x : Char} {a s : List Char} (hx : x ∈ a)
    (h : a.isPrefixOf s = true) : x ∈ s := by
  induction a generalizing s with
  | nil => cases hx
  | cons c cs ih =>
    cases s with
    | nil => simp [List.isPrefixOf] at h
    | cons d ds =>
      simp only [List.isPrefixOf, Bool.and_eq_true, beq_iff_eq] at h
      rcases List.mem_cons.mp hx with h1 | h1
      · rw [h1, h.1]; exact List.mem_cons_self _ _
      · exact List.mem_cons_of_mem _ (ih h1 h.2)

/-- If some character of the pattern never occurs in `s`, removal is the
identity (no occurrence of the pattern can start anywhere in `s`). -/
theorem replaceAllAux_no_occur (pat : List Char) (x : Char) (hx : x ∈ pat) :
    ∀ fuel s, x ∉ s → replaceAllAux pat fuel s = s := by
  intro fuel
  induction fuel with
  | zero => intro s _; cases s <;> rfl
  | succ n ih =>
    intro s hs
    cases s with
    | nil => rfl
    | cons c cs =>
      simp only [replaceAllAux]
      rw [if_neg (fun hcond => hs (mem_of_isPrefixOf hx hcond.1))]
      rw [ih cs (fun hm => hs (List.mem_cons_of_mem _ hm))]

/-- Removing a leading occurrence of the pattern from `pat ++ rest` leaves
`rest`, when the pattern cannot occur inside `rest`. -/
theorem replaceAllAux_strip (pat rest : List Char) (hpat : pat ≠ [])
    (x : Char) (hx : x ∈ pat) (hrest : x ∉ rest) (fuel : Nat) :
    replaceAllAux pat (fuel + 1) (pat ++ rest) = rest := by
  cases pat with
  | nil => exact absurd rfl hpat
  | cons p ps =>
    rw [List.cons_append]
    simp only [replaceAllAux]
    rw [if_pos ⟨List.cons_append p ps rest ▸ isPrefixOf_append_self (p :: ps) rest,
      List.cons_ne_nil _ _⟩]
    have hdrop : List.drop ((p :: ps).length - 1) (ps ++ rest) = rest := by
      simp only [List.length_cons, Nat.add_sub_cancel]
      exact List.drop_left ps rest
    rw [hdrop]
    exact replaceAllAux_no_occur (p :: ps) x hx fuel rest hrest

theorem map_toUpper_id {l : List Char} (h : ∀ c ∈ l, Char.toUpper c = c) :
    l.map Char.toUpper = l := by
  induction l with
  | nil => rfl
  | cons c cs ih =>
    simp only [List.map_cons]
    rw [h c (List.mem_cons_self _ _),
      ih (fun d hd => h d (List.mem_cons_of_mem _ hd))]

theorem dropWhile_of_all_neg {p : Char → Bool} {l : List Char}
    (h : ∀ c ∈ l, p c = false) : l.dropWhile p = l := by
  cases l with
  | nil => rfl
  | cons c cs =>
    rw [List.dropWhile_cons, h c (List.mem_cons_self _ _)]
    simp

/-- A string with no whitespace at all is unchanged by `strip`. -/
theorem pyStrip_of_no_ws (s : String)
    (h : ∀ c ∈ s.data, c.isWhitespace = false) : pyStrip s = s := by
  unfold pyStrip
  rw [dropWhile_of_all_neg h]
  rw [dropWhile_of_all_neg (fun c hc => h c (List.mem_reverse.mp hc))]
  rw [List.reverse_reverse]

/-- `strip` is the identity on `u ++ v` when `u` opens with a non-whitespace
character and `v` is non-empty with no whitespace (the keyword-plus-id body
shapes). -/
theorem pyStrip_keyword_append (u v : String) (c : Char) (cs : List Char)
    (hud : u.data = c :: cs) (hcw : c.isWhitespace = false)
    (hv : ∀ d ∈ v.data, d.isWhitespace = false) (hv0 : v.data ≠ []) :
    pyStrip (u ++ v) = u ++ v := by
  unfold pyStrip
  have hd : (u ++ v).data = c :: (cs ++ v.data) := by
    rw [String.data_append, hud]
    rfl
  have h1 : (u ++ v).data.dropWhile Char.isWhitespace = (u ++ v).data := by
    rw [hd, List.dropWhile_cons, hcw]
    simp
  rw [h1]
  cases hr : v.data.reverse with
  | nil => exact absurd (List.reverse_eq_nil_iff.mp hr) hv0
  | cons y ys =>
    have hy : y ∈ v.data :=
      List.mem_reverse.mp (by rw [hr]; exact List.mem_cons_self _ _)
    have h2 : (u ++ v).data.reverse = y :: (ys ++ u.data.reverse) := by
      rw [String.data_append, List.reverse_append, hr, List.cons_append]
    rw [h2, List.dropWhile_cons, hv y hy]
    simp only [Bool.false_eq_true, if_false]
    rw [← h2, List.reverse_reverse]

/-- Reduction of the decoder on a quick-reply payload that splits in two. -/
theorem parseResponse_button_split (fd : FormData) (bp : String)
    (hfd : fd.ButtonPayload = some bp) (htr : pyTruthy (some bp) = true)
    (a s : List Char) (hsplit : pySplitChar '_' bp.data = [a, s]) :
    parseResponse fd =
      (if (⟨a⟩ : String) = "approve" ∨ (⟨a⟩ : String) = "deny" then
        ParseOutcome.parsed
          (if (⟨a⟩ : String) = "approve" then "approved" else "denied")
          (⟨s⟩ : String)
          (if pyTruthy fd.ButtonText then fd.ButtonText.getD ""
           else (⟨a⟩ : String) ++ "_" ++ (⟨s⟩ : String))
      else ParseOutcome.ignored "Invalid button payload") := by
  unfold parseResponse
  rw [hfd, if_pos htr, Option.getD_some, hsplit]

/-- Reduction of the decoder on a list-picker payload that splits in two. -/
theorem parseResponse_list_split (fd : FormData) (li : String)
    (hbp : pyTruthy fd.ButtonPayload = false)
    (hfd : fd.ListId = some li) (htr : pyTruthy (some li) = true)
    (a s : List Char) (hsplit : pySplitChar ':' li.data = [a, s]) :
    parseResponse fd =
      (if (⟨a⟩ : String) = "approve" ∨ (⟨a⟩ : String) = "deny" then
        ParseOutcome.parsed
          (if (⟨a⟩ : String) = "approve" then "approved" else "denied")
          (⟨s⟩ : String) ((⟨a⟩ : String) ++ ":" ++ (⟨s⟩ : String))
      else ParseOutcome.ignored "Invalid list selection") := by
  unfold parseResponse
  rw [hbp, if_neg (by decide : ¬(false = true)), hfd, if_pos htr,
    Option.getD_some, hsplit]

/-- Reduction of the decoder on a free-text body. -/
theorem parseResponse_text (fd : FormData) (b : String)
    (hbp : pyTruthy fd.ButtonPayload = false)
    (hli : pyTruthy fd.ListId = false)
    (hfd : fd.Body = some b) (htr : pyTruthy (some b) = true) :
    parseResponse fd =
      (if pyStartsWith (pyUpper (pyStrip b)) "APPROVE " then
        ParseOutcome.parsed "approved"
          (pyStrip (pyReplaceDel (pyUpper (pyStrip b)) "APPROVE "))
          (pyUpper (pyStrip b))
      else if pyStartsWith (pyUpper (pyStrip b)) "DENY " then
        ParseOutcome.parsed "denied"
          (pyStrip (pyReplaceDel (pyUpper (pyStrip b)) "DENY "))
          (pyUpper (pyStrip b))
      else ParseOutcome.ignored "Invalid format") := by
  unfold parseResponse
  rw [hbp, if_neg (by decide : ¬(false = true)), hli,
    if_neg (by decide : ¬(false = true)), hfd, if_neg (by rw [htr]; decide),
    Option.getD_some]

/-- C7 counterexample: the claim's free-text round-trip fails as stated.
Encoding `("approve", "abc12345")` per the free-text shape `"APPROVE <id>"`
and decoding yields `("approved", "ABC12345")` — the upper-cased id, not the
encoded `"abc12345"` — because line 262 upper-cases the whole body before
extracting the id. -/
theorem parse_freetext_roundtrip_cex :
    parseResponse { Body := some "APPROVE abc12345" } =
      ParseOutcome.parsed "approved" "ABC12345" "APPROVE ABC12345" ∧
    ("ABC12345" : String) ≠ "abc12345" :=
  ⟨by decide, by decide⟩

/-- Upper-casing a non-whitespace character yields a non-whitespace
character (core `Char.toUpper` only maps `a`-`z` into `A`-`Z`). -/
theorem toUpper_isWhitespace_eq_false (c : Char) (h : c.isWhitespace = false) :
    (Char.toUpper c).isWhitespace = false := by
  unfold Char.toUpper
  dsimp only
  split
  · rename_i hcond
    have hval : (c.toNat - 32).isValidChar := by
      left
      omega
    have htn : (Char.ofNat (c.toNat - 32)).toNat = c.toNat - 32 := by
      rw [Char.ofNat, dif_pos hval]
      simp [Char.ofNatAux, Char.toNat, UInt32.toNat]
    unfold Char.isWhitespace
    simp only [Bool.or_eq_false_iff, decide_eq_false_iff_not]
    refine ⟨⟨⟨?_, ?_⟩, ?_⟩, ?_⟩
    · intro heq
      have h2 := congrArg Char.toNat heq
      rw [htn, show (' ' : Char).toNat = 32 from rfl] at h2
      omega
    · intro heq
      have h2 := congrArg Char.toNat heq
      rw [htn, show ('\t' : Char).toNat = 9 from rfl] at h2
      omega
    · intro heq
      have h2 := congrArg Char.toNat heq
      rw [htn, show ('\r' : Char).toNat = 13 from rfl] at h2
      omega
    · intro heq
      have h2 := congrArg Char.toNat heq
      rw [htn, show ('\n' : Char).toNat = 10 from rfl] at h2
      omega
  · exact h

/-- A map that fixes a list fixes each of its elements. -/
theorem map_eq_self_mem {f : Char → Char} {l : List Char} (h : l.map f = l) :
    ∀ c ∈ l, f c = c := by
  induction l with
  | nil => intro c hc; cases hc
  | cons a as ih =>
    simp only [List.map_cons, List.cons.injEq] at h
    intro c hc
    rcases List.mem_cons.mp hc with rfl | hc'
    · exact h.1
    · exact ih h.2 c hc'

/-- C7 amended: for actions `approve`/`deny`: the button shape (joined by
`"_"`) round-trips for every id not containing the `"_"` delimiter, and the
list shape (joined by `":"`) for every id not containing `":"` — including
the program's lowercase hex ids.  The free-text shape `"APPROVE <id>"` /
`"DENY <id>"` (non-empty, whitespace-free id) decodes to the pair with the
id UPPER-CASED — `(decision, pyUpper id)` — because line 262 upper-cases the
whole body; since `pyUpper id = id` exactly when every character of the id
is fixed by upper-casing, the free-text round-trip holds exactly for such
ids (e.g. digits and uppercase letters) and fails for lowercase ones, as the
counterexample shows.  Structured fields take precedence: with a
`ButtonPayload` present the decode ignores `Body` and `ListId`, and with
only a `ListId` present it ignores `Body`. -/
theorem parse_roundtrip_amended (action id : String)
    (hact : action = "approve" ∨ action = "deny") :
    ('_' ∉ id.data →
      parseResponse { ButtonPayload := some (action ++ "_" ++ id) } =
        ParseOutcome.parsed
          (if action = "approve" then "approved" else "denied")
          id (action ++ "_" ++ id)) ∧
    (':' ∉ id.data →
      parseResponse { ListId := some (action ++ ":" ++ id) } =
        ParseOutcome.parsed
          (if action = "approve" then "approved" else "denied")
          id (action ++ ":" ++ id)) ∧
    (id.data ≠ [] → (∀ c ∈ id.data, c.isWhitespace = false) →
      parseResponse { Body := some (pyUpper action ++ " " ++ id) } =
        ParseOutcome.parsed
          (if action = "approve" then "approved" else "denied")
          (pyUpper id) (pyUpper action ++ " " ++ pyUpper id)) ∧
    (pyUpper id = id ↔ ∀ c ∈ id.data, Char.toUpper c = c) ∧
    (∀ fd b l, pyTruthy fd.ButtonPayload = true →
      parseResponse { fd with Body := b, ListId := l } = parseResponse fd) ∧
    (∀ fd b, pyTruthy fd.ButtonPayload = false → pyTruthy fd.ListId = true →
      parseResponse { fd with Body := b } = parseResponse fd) := by
  have upfix : pyUpper id = id ↔ ∀ c ∈ id.data, Char.toUpper c = c := by
    constructor
    · intro h c hc
      exact map_eq_self_mem (congrArg String.data h) c hc
    · intro h
      show String.mk (List.map Char.toUpper id.data) = id
      rw [map_toUpper_id h]
  have prec1 : ∀ (fd : FormData) (b l : Option String),
      pyTruthy fd.ButtonPayload = true →
      parseResponse { fd with Body := b, ListId := l } = parseResponse fd := by
    intro fd b l h
    unfold parseResponse
    dsimp only
    rw [if_pos h, if_pos h]
  have prec2 : ∀ (fd : FormData) (b : Option String),
      pyTruthy fd.ButtonPayload = false → pyTruthy fd.ListId = true →
      parseResponse { fd with Body := b } = parseResponse fd := by
    intro fd b h1 h2
    unfold parseResponse
    dsimp only
    rw [h1]
    rw [if_neg (by decide : ¬(false = true)), if_neg (by decide : ¬(false = true))]
    rw [if_pos h2, if_pos h2]
  rcases hact with rfl | rfl
  · -- action = "approve"
    refine ⟨?_, ?_, ?_, upfix, prec1, prec2⟩
    · -- button shape
      intro hnous
      have hbp : ("approve" ++ "_" ++ id : String).data =
          "approve".data ++ '_' :: id.data := by
        rw [String.data_append, String.data_append, List.append_assoc]
        rfl
      have htr : pyTruthy (some ("approve" ++ "_" ++ id)) = true := by
        show (!("approve" ++ "_" ++ id : String).data.isEmpty) = true
        rw [hbp]
        rfl
      rw [parseResponse_button_split _ ("approve" ++ "_" ++ id) rfl htr
        "approve".data id.data
        (by rw [hbp]; exact pySplitChar_single '_' _ _ (by decide) hnous)]
      rfl
    · -- list shape
      intro hnocol
      have hbp : ("approve" ++ ":" ++ id : String).data =
          "approve".data ++ ':' :: id.data := by
        rw [String.data_append, String.data_append, List.append_assoc]
        rfl
      have htr : pyTruthy (some ("approve" ++ ":" ++ id)) = true := by
        show (!("approve" ++ ":" ++ id : String).data.isEmpty) = true
        rw [hbp]
        rfl
      rw [parseResponse_list_split { ListId := some ("approve" ++ ":" ++ id) }
        ("approve" ++ ":" ++ id) rfl rfl htr
        "approve".data id.data
        (by rw [hbp]; exact pySplitChar_single ':' _ _ (by decide) hnocol)]
      rfl
    · -- free-text shape
      intro hne hws
      have hwsU : ∀ c ∈ (pyUpper id).data, c.isWhitespace = false := by
        intro c hc
        rcases List.mem_map.mp
          (show c ∈ List.map Char.toUpper id.data from hc) with ⟨d, hd, hdc⟩
        rw [← hdc]
        exact toUpper_isWhitespace_eq_false d (hws d hd)
      have hnospU : ' ' ∉ (pyUpper id).data :=
        fun hm => absurd (hwsU ' ' hm) (by decide)
      have hB : (pyUpper "approve" ++ " " ++ id : String) = "APPROVE " ++ id := by
        rw [show (pyUpper "approve" ++ " " ++ id : String) =
          (pyUpper "approve" ++ " ") ++ id from rfl,
          show (pyUpper "approve" ++ " " : String) = "APPROVE " from rfl]
      rw [hB]
      have h1 : pyStrip ("APPROVE " ++ id) = "APPROVE " ++ id :=
        pyStrip_keyword_append "APPROVE " id 'A' "PPROVE ".data rfl rfl hws hne
      have h2 : pyUpper ("APPROVE " ++ id) = "APPROVE " ++ pyUpper id := rfl
      have h3 : pyStartsWith ("APPROVE " ++ pyUpper id) "APPROVE " = true := by
        unfold pyStartsWith
        rw [String.data_append]
        exact isPrefixOf_append_self _ _
      have h4 : pyReplaceDel ("APPROVE " ++ pyUpper id) "APPROVE " = pyUpper id := by
        unfold pyReplaceDel
        rw [String.data_append]
        have h8 : ("APPROVE " : String).data.length = 8 := rfl
        rw [show ("APPROVE ".data ++ (pyUpper id).data).length =
          (7 + (pyUpper id).data.length) + 1 by
          rw [List.length_append, h8]; omega]
        rw [replaceAllAux_strip "APPROVE ".data (pyUpper id).data (by decide) ' '
          (by decide) hnospU (7 + (pyUpper id).data.length)]
      have h5 : pyStrip (pyUpper id) = pyUpper id := pyStrip_of_no_ws _ hwsU
      have htr : pyTruthy (some ("APPROVE " ++ id)) = true := by
        show (!("APPROVE " ++ id : String).data.isEmpty) = true
        rw [String.data_append]
        rfl
      rw [parseResponse_text { Body := some ("APPROVE " ++ id) }
        ("APPROVE " ++ id) rfl rfl rfl htr]
      rw [h1, h2, if_pos h3, h4, h5]
      rfl
  · -- action = "deny"
    refine ⟨?_, ?_, ?_, upfix, prec1, prec2⟩
    · intro hnous
      have hbp : ("deny" ++ "_" ++ id : String).data =
          "deny".data ++ '_' :: id.data := by
        rw [String.data_append, String.data_append, List.append_assoc]
        rfl
      have htr : pyTruthy (some ("deny" ++ "_" ++ id)) = true := by
        show (!("deny" ++ "_" ++ id : String).data.isEmpty) = true
        rw [hbp]
        rfl
      rw [parseResponse_button_split _ ("deny" ++ "_" ++ id) rfl htr
        "deny".data id.data
        (by rw [hbp]; exact pySplitChar_single '_' _ _ (by decide) hnous)]
      rfl
    · intro hnocol
      have hbp : ("deny" ++ ":" ++ id : String).data =
          "deny".data ++ ':' :: id.data := by
        rw [String.data_append, String.data_append, List.append_assoc]
        rfl
      have htr : pyTruthy (some ("deny" ++ ":" ++ id)) = true := by
        show (!("deny" ++ ":" ++ id : String).data.isEmpty) = true
        rw [hbp]
        rfl
      rw [parseResponse_list_split { ListId := some ("deny" ++ ":" ++ id) }
        ("deny" ++ ":" ++ id) rfl rfl htr
        "deny".data id.data
        (by rw [hbp]; exact pySplitChar_single ':' _ _ (by decide) hnocol)]
      rfl
    · intro hne hws
      have hwsU : ∀ c ∈ (pyUpper id).data, c.isWhitespace = false := by
        intro c hc
        rcases List.mem_map.mp
          (show c ∈ List.map Char.toUpper id.data from hc) with ⟨d, hd, hdc⟩
        rw [← hdc]
        exact toUpper_isWhitespace_eq_false d (hws d hd)
      have hnospU : ' ' ∉ (pyUpper id).data :=
        fun hm => absurd (hwsU ' ' hm) (by decide)
      have hB : (pyUpper "deny" ++ " " ++ id : String) = "DENY " ++ id := by
        rw [show (pyUpper "deny" ++ " " ++ id : String) =
          (pyUpper "deny" ++ " ") ++ id from rfl,
          show (pyUpper "deny" ++ " " : String) = "DENY " from rfl]
      rw [hB]
      have h1 : pyStrip ("DENY " ++ id) = "DENY " ++ id :=
        pyStrip_keyword_append "DENY " id 'D' "ENY ".data rfl rfl hws hne
      have h2 : pyUpper ("DENY " ++ id) = "DENY " ++ pyUpper id := rfl
      have h3 : pyStartsWith ("DENY " ++ pyUpper id) "APPROVE " = false := by
        unfold pyStartsWith
        rw [String.data_append]
        rw [show ("DENY " : String).data ++ (pyUpper id).data =
          'D' :: ("ENY ".data ++ (pyUpper id).data) from rfl]
        rw [show ("APPROVE " : String).data = 'A' :: "PPROVE ".data from rfl]
        simp only [List.isPrefixOf]
        rw [show ('A' == 'D') = false from rfl, Bool.false_and]
      have h3' : pyStartsWith ("DENY " ++ pyUpper id) "DENY " = true := by
        unfold pyStartsWith
        rw [String.data_append]
        exact isPrefixOf_append_self _ _
      have h4 : pyReplaceDel ("DENY " ++ pyUpper id) "DENY " = pyUpper id := by
        unfold pyReplaceDel
        rw [String.data_append]
        have h5' : ("DENY " : String).data.length = 5 := rfl
        rw [show ("DENY ".data ++ (pyUpper id).data).length =
          (4 + (pyUpper id).data.length) + 1 by
          rw [List.length_append, h5']; omega]
        rw [replaceAllAux_strip "DENY ".data (pyUpper id).data (by decide) ' '
          (by decide) hnospU (4 + (pyUpper id).data.length)]
      have h5 : pyStrip (pyUpper id) = pyUpper id := pyStrip_of_no_ws _ hwsU
      have htr : pyTruthy (some ("DENY " ++ id)) = true := by
        show (!("DENY " ++ id : String).data.isEmpty) = true
        rw [String.data_append]
        rfl
      rw [parseResponse_text { Body := some ("DENY " ++ id) }
        ("DENY " ++ id) rfl rfl rfl htr]
      rw [h1, h2, if_neg (by rw [h3]; decide), if_pos h3', h4, h5]
      rfl

/-- C7 witness: with the program's own lowercase hex id `abc12345`, the
button and list shapes round-trip to the lowercase id, and the free-text
shape decodes to the upper-cased id. -/
theorem parse_roundtrip_amended_witness :
    (parseResponse { ButtonPayload := some ("approve" ++ "_" ++ "abc12345") } =
      ParseOutcome.parsed
        (if ("approve" : String) = "approve" then "approved" else "denied")
        "abc12345" ("approve" ++ "_" ++ "abc12345")) ∧
    (parseResponse { ListId := some ("approve" ++ ":" ++ "abc12345") } =
      ParseOutcome.parsed
        (if ("approve" : String) = "approve" then "approved" else "denied")
        "abc12345" ("approve" ++ ":" ++ "abc12345")) ∧
    (parseResponse { Body := some (pyUpper "approve" ++ " " ++ "abc12345") } =
      ParseOutcome.parsed
        (if ("approve" : String) = "approve" then "approved" else "denied")
        (pyUpper "abc12345") (pyUpper "approve" ++ " " ++ pyUpper "abc12345")) :=
  ⟨(parse_roundtrip_amended "approve" "abc12345" (Or.inl rfl)).1 (by decide),
   (parse_roundtrip_amended "approve" "abc12345" (Or.inl rfl)).2.1 (by decide),
   (parse_roundtrip_amended "approve" "abc12345" (Or.inl rfl)).2.2.1
     (by decide) (by decide)⟩
